import Mathlib

/-!
Verification of the page-dewarping engine (`page_dewarp.py`) of ankinize.

Shallow embedding: the numeric code is modelled over `ℚ` where the Python
floats only do field arithmetic and comparisons (exact real semantics), and
over `ℝ` where transcendental functions (`atan2`, `sqrt`, `π`) appear.
External OpenCV primitives with no numeric content of their own
(`drawContours` rasterization, `solvePnP`, `SVDecomp`) are taken as
parameters of the definitions that consume their output.
-/

namespace PageDewarp

/-! ## Geometry primitives: pix2norm / norm2pix (page_dewarp.py lines 132-154)

`pix2norm(shape, pts)` maps pixel coordinates to the centered, scale-normalized
space, `norm2pix(shape, pts, as_integer)` maps back.  `shape[:2]` is
`(height, width)`. -/

/-- Embedding of `pix2norm`: `scl = 2.0 / max(height, width)`,
`offset = [width, height] * 0.5`, result `(pts - offset) * scl`. -/
def pix2norm (height width : ℕ) (p : ℚ × ℚ) : ℚ × ℚ :=
  let scl : ℚ := 2 / ((max height width : ℕ) : ℚ)
  ((p.1 - (width : ℚ) * (1/2)) * scl, (p.2 - (height : ℚ) * (1/2)) * scl)

/-- Embedding of `norm2pix` with `as_integer=False`:
`scl = max(height, width) * 0.5`, `offset = [0.5*width, 0.5*height]`,
result `pts * scl + offset`. -/
def norm2pix (height width : ℕ) (p : ℚ × ℚ) : ℚ × ℚ :=
  let scl : ℚ := ((max height width : ℕ) : ℚ) * (1/2)
  (p.1 * scl + (1/2) * (width : ℚ), p.2 * scl + (1/2) * (height : ℚ))

/-- Truncation toward zero, the semantics of numpy `.astype(int)`. -/
def rat_trunc (q : ℚ) : ℤ := if q < 0 then ⌈q⌉ else ⌊q⌋

/-- Embedding of the `as_integer=True` branch of `norm2pix`:
`(rval + 0.5).astype(int)`. -/
def norm2pix_as_int (height width : ℕ) (p : ℚ × ℚ) : ℤ × ℤ :=
  let r := norm2pix height width p
  (rat_trunc (r.1 + 1/2), rat_trunc (r.2 + 1/2))

/-! ## resize_to_screen (page_dewarp.py lines 253-272), shape level

`scl = int(ceil(max(width/1280, height/700)))`; when `scl > 1` the image is
resized by the factor `1/scl` (cv2.resize computes the target size with
cvRound, round-half-to-even); otherwise it is returned unchanged. -/

/-- Round half to even, the semantics of OpenCV `cvRound` on exact values. -/
def cvRound (q : ℚ) : ℤ :=
  let f := ⌊q⌋
  let r := q - (f : ℚ)
  if r < 1/2 then f
  else if 1/2 < r then f + 1
  else if f % 2 = 0 then f else f + 1

/-- Shape `(height, width)` of `resize_to_screen(src, maxw=1280, maxh=700)`. -/
def resize_to_screen_shape (height width : ℕ) : ℕ × ℕ :=
  let scl_x : ℚ := (width : ℚ) / 1280
  let scl_y : ℚ := (height : ℚ) / 700
  let scl : ℤ := ⌈max scl_x scl_y⌉
  if 1 < scl then
    let inv_scl : ℚ := 1 / (scl : ℚ)
    ((cvRound ((height : ℚ) * inv_scl)).toNat, (cvRound ((width : ℚ) * inv_scl)).toNat)
  else (height, width)

/-- Shape of the value returned by `page_dewarp` on the no-span path
(line 863): `cv2.cvtColor(small, cv2.COLOR_RGB2GRAY)` — a single-channel
image with the same height and width as `small = resize_to_screen(img)`. -/
def no_span_return_shape (height width : ℕ) : ℕ × ℕ :=
  resize_to_screen_shape height width

/-! ## Channel normalization at the top of page_dewarp (lines 831-836)

`if len(img.shape) == 2: GRAY2RGB; elif img.shape[2] == 4: RGBA2RGB` —
no other case is touched and no error of any kind is raised here.
Channel counts are modelled as `Option ℕ`: `none` is a 2-D (grayscale)
array, `some c` an array with `c` channels. -/

/-- Embedding of the channel-normalization step of `page_dewarp`. -/
def normalize_channels : Option ℕ → Option ℕ
  | none => some 3
  | some c => if c = 4 then some 3 else some c

/-- Error condition named by the specification for unsupported inputs. -/
inductive ImageFormatError where
  | invalidImageFormat : ImageFormatError

/-- Modelled from the spec (refinement comparison only; this is not in the
source): inputs other than grayscale, RGB or RGBA "should fail with an
explicit InvalidImageFormat condition rather than silently misinterpreting
channels". -/
def spec_channel_check : Option ℕ → Except ImageFormatError (Option ℕ)
  | none => Except.ok (some 3)
  | some c =>
    if c = 3 then Except.ok (some 3)
    else if c = 4 then Except.ok (some 3)
    else Except.error ImageFormatError.invalidImageFormat

/-! ## blob_mean_and_tangent (page_dewarp.py lines 361-384)

`area = moments['m00']; if area < 1e-7: area = 1e-7`; the centroid and the
normalized second-moment matrix are divided by that area.  The tangent is the
first column of `cv2.SVDecomp` of the matrix (external). -/

/-- Image moments of a contour, as returned by `cv2.moments`. -/
structure Moments where
  m00 : ℚ
  m10 : ℚ
  m01 : ℚ
  mu20 : ℚ
  mu11 : ℚ
  mu02 : ℚ

/-- Embedding of the epsilon-floored area of `blob_mean_and_tangent`. -/
def blob_area (m : Moments) : ℚ :=
  if m.m00 < 1/10000000 then 1/10000000 else m.m00

/-- Embedding of the centroid `(m10/area, m01/area)`. -/
def blob_mean (m : Moments) : ℚ × ℚ :=
  (m.m10 / blob_area m, m.m01 / blob_area m)

/-- Embedding of the normalized second-moment matrix fed to the SVD. -/
def blob_moments_matrix (m : Moments) : (ℚ × ℚ) × (ℚ × ℚ) :=
  ((m.mu20 / blob_area m, m.mu11 / blob_area m),
   (m.mu11 / blob_area m, m.mu02 / blob_area m))

/-! ## get_contours filtering (page_dewarp.py lines 458-487)

A contour is a point list (CHAIN_APPROX_NONE).  `cv2.boundingRect` yields
`(xmin, ymin, width, height)` with `width = xmax - xmin + 1`.  The tight mask
produced by `make_tight_mask` (cv2.drawContours rasterization) is abstracted
as a parameter `fill`; the filter keeps a contour only when the bounding box
passes the size/aspect tests and the per-column mask thickness stays at or
under `TEXT_MAX_THICKNESS`. -/

/-- Embedding of `cv2.boundingRect` on a nonempty point list; an empty list
gets the degenerate rectangle `(0, 0, 0, 0)`. -/
def bounding_rect (ps : List (ℤ × ℤ)) : ℤ × ℤ × ℕ × ℕ :=
  match ps with
  | [] => (0, 0, 0, 0)
  | q :: qs =>
    let xs := (q :: qs).map Prod.fst
    let ys := (q :: qs).map Prod.snd
    let x0 := xs.foldl min q.1
    let y0 := ys.foldl min q.2
    let x1 := xs.foldl max q.1
    let y1 := ys.foldl max q.2
    (x0, y0, (x1 - x0 + 1).toNat, (y1 - y0 + 1).toNat)

/-- Embedding of `tight_mask.sum(axis=0).max()`: the largest column sum of a
row-major grid of cell values. -/
def max_col_sum (mask : List (List ℕ)) : ℕ :=
  (mask.transpose.map List.sum).foldl max 0

/-- Embedding of the per-contour acceptance test of `get_contours`
(`TEXT_MIN_WIDTH = 15`, `TEXT_MIN_HEIGHT = 2`, `TEXT_MIN_ASPECT = 1.5`,
`TEXT_MAX_THICKNESS = 10`). -/
def contour_filter (fill : List (ℤ × ℤ) → List (List ℕ)) (c : List (ℤ × ℤ)) : Bool :=
  let r := bounding_rect c
  let w := r.2.2.1
  let h := r.2.2.2
  if w < 15 ∨ h < 2 ∨ (w : ℚ) < 3/2 * (h : ℚ) then false
  else if 10 < max_col_sum (fill c) then false
  else true

/-- Embedding of `get_contours` restricted to its filtering content: the
contours surviving the acceptance test, in input order. -/
def get_contours (fill : List (ℤ × ℤ) → List (List ℕ))
    (contours : List (List (ℤ × ℤ))) : List (List (ℤ × ℤ)) :=
  contours.filter (contour_filter fill)

/-! ## project_xy cubic height (page_dewarp.py lines 215-240)

`alpha, beta = pvec[6:8]`; `poly = [alpha+beta, -2*alpha + -1*beta, alpha, 0]`;
`z = polyval(poly, xy[:, 0])` — the height depends only on column 0. -/

/-- Embedding of `np.polyval([a, b, c, d], x)` (Horner iteration). -/
def polyval_dewarp (a b c d x : ℝ) : ℝ :=
  (((0 * x + a) * x + b) * x + c) * x + d

/-- Embedding of the cubic height `z(x)` evaluated by `project_xy`. -/
def project_z (pvec : List ℝ) (x : ℝ) : ℝ :=
  let alpha := pvec.getD 6 0
  let beta := pvec.getD 7 0
  polyval_dewarp (alpha + beta) (-2 * alpha + -1 * beta) alpha 0 x

/-- Height coordinate of the lifted 3-D object point of `project_xy`:
computed from the page-space point's first coordinate only. -/
def lift_z (pvec : List ℝ) (xy : ℝ × ℝ) : ℝ :=
  project_z pvec xy.1

/-! ## get_default_params parameter vector (page_dewarp.py lines 180-212)

`params = hstack((rvec.flatten(), tvec.flatten(), cubic_slopes, ycoords) +
tuple(xcoords))` with `cubic_slopes = [0.0, 0.0]` and
`span_counts = [len(xc) for xc in xcoords]`.  `rvec`/`tvec` come from
`cv2.solvePnP` (external), so they are parameters here. -/

/-- Embedding of the parameter vector assembled by `get_default_params`. -/
def default_params (rvec tvec ycoords : List ℝ) (xcoords : List (List ℝ)) : List ℝ :=
  rvec ++ tvec ++ [0, 0] ++ ycoords ++ xcoords.flatten

/-- Embedding of `span_counts = [len(xc) for xc in xcoords]`. -/
def span_counts (xcoords : List (List ℝ)) : List ℕ :=
  xcoords.map List.length

/-! ## remap_image final composite (page_dewarp.py lines 797-810)

`final_image` starts all zeros; pixels with `red_mask > 0` are set to
`(0, 0, 255)`; pixels with `red_mask == 0 and thresh == 255` are set to
`(255, 255, 255)`; the rest keep `(0, 0, 0)`.  Modelled per pixel, with the
sequential masked assignments kept as two layered steps. -/

/-- Initial value of every pixel of `final_image` (`np.zeros`). -/
def composite_init : ℕ × ℕ × ℕ := (0, 0, 0)

/-- Pixel after the red-mask assignment `final_image[red_mask > 0] = (0,0,255)`. -/
def composite_after_red (red : ℕ) : ℕ × ℕ × ℕ :=
  if 0 < red then (0, 0, 255) else composite_init

/-- Pixel after the white-mask assignment
`final_image[(red_mask == 0) & (thresh == 255)] = (255,255,255)`. -/
def composite_pixel (red thresh : ℕ) : ℕ × ℕ × ℕ :=
  if red = 0 ∧ thresh = 255 then (255, 255, 255) else composite_after_red red

/-! ## Span assembly (page_dewarp.py lines 348-358, 387-445, 490-532)

`ContourInfo` is embedded as a record of the numeric fields that
`assemble_spans` and `generate_candidate_edge` read: centroid, tangent,
local tangent-projection range (`local_xrng`) and the bounding-box top
`rect[1]` used as the sort key.  `point0`/`point1` and `angle` are derived
exactly as the constructor derives them.  Contours are addressed by their
index in the (sorted) list; the mutable `pred`/`succ` object fields become
a pair of maps from indices to optional indices.  The transcendental parts
(`np.arctan2`, `np.linalg.norm`, `π`) are modelled over `ℝ`: `atan2` is
`Complex.arg`, and the while-loop of `angle_dist` (which adds or subtracts
`2π` until the difference lies in `[-π, π]`) is written in the closed form
with the same absolute value.  The unbounded `while` walks of
`assemble_spans` are given fuel; exhausted fuel (`none`) marks exactly the
executions on which the Python loops do not terminate or `list.remove`
fails. -/

/-- Embedding of `np.arctan2 y x`: the argument of the complex number
`x + i y`, in `(-π, π]`, with `atan2 0 0 = 0` as in numpy. -/
noncomputable def atan2 (y x : ℝ) : ℝ :=
  Complex.arg (x + y * Complex.I)

/-- Embedding of `angle_dist`: the absolute value of the representative of
`angle_b - angle_a` in `[-π, π]`, which is what the two normalization loops
of the source compute. -/
noncomputable def angle_dist (angle_b angle_a : ℝ) : ℝ :=
  |angle_b - angle_a - 2 * Real.pi * ((round ((angle_b - angle_a) / (2 * Real.pi)) : ℤ) : ℝ)|

/-- Numeric fields of a `ContourInfo` record read by span assembly. -/
structure CInfo where
  centerx : ℝ
  centery : ℝ
  tangentx : ℝ
  tangenty : ℝ
  lxmin : ℝ
  lxmax : ℝ
  recty : ℝ

/-- Orientation angle, as derived in `ContourInfo.__init__`:
`arctan2(tangent[1], tangent[0])`. -/
noncomputable def CInfo.angle (c : CInfo) : ℝ :=
  atan2 c.tangenty c.tangentx

/-- First coordinate of `point0 = center + tangent * lxmin`. -/
def CInfo.point0x (c : CInfo) : ℝ := c.centerx + c.tangentx * c.lxmin

/-- Second coordinate of `point0`. -/
def CInfo.point0y (c : CInfo) : ℝ := c.centery + c.tangenty * c.lxmin

/-- First coordinate of `point1 = center + tangent * lxmax`. -/
def CInfo.point1x (c : CInfo) : ℝ := c.centerx + c.tangentx * c.lxmax

/-- Second coordinate of `point1`. -/
def CInfo.point1y (c : CInfo) : ℝ := c.centery + c.tangenty * c.lxmax

/-- Embedding of `ContourInfo.proj_x`: `dot(tangent, point - center)`. -/
def CInfo.projx (c : CInfo) (px py : ℝ) : ℝ :=
  c.tangentx * (px - c.centerx) + c.tangenty * (py - c.centery)

/-- Embedding of `interval_measure_overlap((a0, a1), (b0, b1))`. -/
def interval_measure_overlap (a0 a1 b0 b1 : ℝ) : ℝ :=
  min a1 b1 - max a0 b0

/-- Embedding of `ContourInfo.local_overlap`. -/
def local_overlap (a b : CInfo) : ℝ :=
  interval_measure_overlap a.lxmin a.lxmax
    (a.projx b.point0x b.point0y) (a.projx b.point1x b.point1y)

/-- Max reduced px horizontal overlap of contours in a span. -/
def EDGE_MAX_OVERLAP : ℝ := 1

/-- Max reduced px length of an edge connecting contours. -/
def EDGE_MAX_LENGTH : ℝ := 100

/-- Cost of angles in edges. -/
def EDGE_ANGLE_COST : ℝ := 10

/-- Maximum change in angle allowed between contours. -/
def EDGE_MAX_ANGLE : ℝ := 7.5

/-- Minimum reduced px width for a span. -/
def SPAN_MIN_WIDTH : ℝ := 30

/-- Body of `generate_candidate_edge` after the left-right swap; `ia`, `ib`
are the indices of `a`, `b` in the sorted contour list. -/
noncomputable def generate_candidate_edge_core (ia : ℕ) (a : CInfo) (ib : ℕ) (b : CInfo) :
    Option (ℝ × ℕ × ℕ) :=
  let x_overlap_a := local_overlap a b
  let x_overlap_b := local_overlap b a
  let overall_tangent_x := b.centerx - a.centerx
  let overall_tangent_y := b.centery - a.centery
  let overall_angle := atan2 overall_tangent_y overall_tangent_x
  let delta_angle := max (angle_dist a.angle overall_angle)
    (angle_dist b.angle overall_angle) * 180 / Real.pi
  let x_overlap := max x_overlap_a x_overlap_b
  let dist := Real.sqrt ((b.point0x - a.point1x) ^ 2 + (b.point0y - a.point1y) ^ 2)
  if dist > EDGE_MAX_LENGTH ∨ x_overlap > EDGE_MAX_OVERLAP ∨
      delta_angle > EDGE_MAX_ANGLE then none
  else some (dist + delta_angle * EDGE_ANGLE_COST, ia, ib)

/-- Embedding of `generate_candidate_edge`: the two contours are swapped
first when `cinfo_a.point0[0] > cinfo_b.point1[0]`, so an accepted edge
always points left-to-right in image x. -/
noncomputable def generate_candidate_edge (ia : ℕ) (a : CInfo) (ib : ℕ) (b : CInfo) :
    Option (ℝ × ℕ × ℕ) :=
  if a.point0x > b.point1x then generate_candidate_edge_core ib b ia a
  else generate_candidate_edge_core ia a ib b

/-- Default record used only to totalize list indexing. -/
def dummyCInfo : CInfo := ⟨0, 0, 0, 0, 0, 0, 0⟩

/-- Embedding of the candidate-edge generation loop of `assemble_spans`:
`for i, cinfo_i in enumerate(cinfo_list): for j in range(i):
generate_candidate_edge(cinfo_i, cinfo_list[j])`, keeping the accepted
edges in loop order. -/
noncomputable def candidate_edges (l : List CInfo) : List (ℝ × ℕ × ℕ) :=
  (List.range l.length).flatMap (fun i =>
    (List.range i).filterMap (fun j =>
      generate_candidate_edge i (l.getD i dummyCInfo) j (l.getD j dummyCInfo)))

/-- Embedding of `candidate_edges.sort()`: a stable sort ascending by score.
Python compares the tuples `(score, cinfo_a, cinfo_b)` lexicographically and
raises on tied scores (ContourInfo objects are unordered); on the tie-free
lists the pipeline produces, any stable sort by score computes the same
result. -/
noncomputable def sort_edges (es : List (ℝ × ℕ × ℕ)) : List (ℝ × ℕ × ℕ) :=
  List.insertionSort (fun e f => e.1 ≤ f.1) es

/-- Embedding of `sorted(cinfo_list, key=lambda cinfo: cinfo.rect[1])`
(a stable sort, like Python's). -/
noncomputable def sort_cinfos (l : List CInfo) : List CInfo :=
  List.insertionSort (fun a b => a.recty ≤ b.recty) l

/-- The `pred`/`succ` link fields of all contours, indexed by list position. -/
structure Links where
  succ : ℕ → Option ℕ
  pred : ℕ → Option ℕ

/-- Initial link state: `ContourInfo.__init__` sets `pred = succ = None`. -/
def empty_links : Links :=
  ⟨fun _ => none, fun _ => none⟩

/-- Embedding of one step of the greedy edge consumption:
`if cinfo_a.succ is None and cinfo_b.pred is None: link a -> b`. -/
def apply_edge (s : Links) (e : ℝ × ℕ × ℕ) : Links :=
  if s.succ e.2.1 = none ∧ s.pred e.2.2 = none then
    { succ := fun i => if i = e.2.1 then some e.2.2 else s.succ i,
      pred := fun i => if i = e.2.2 then some e.2.1 else s.pred i }
  else s

/-- Link state after `assemble_spans` has consumed all sorted candidate
edges of the contour list `l` (which must already be the sorted list). -/
noncomputable def link_edges (l : List CInfo) : Links :=
  List.foldl apply_edge empty_links (sort_edges (candidate_edges l))

/-- Invariant of the link state: `succ` and `pred` are mutually inverse. -/
def links_inverse (s : Links) : Prop :=
  ∀ i j : ℕ, s.succ i = some j ↔ s.pred j = some i

/-- Iterated `succ` lookup: `succ_iter s k i` follows `succ` links `k` times
starting at `i`; `none` when a missing link is hit. -/
def succ_iter (s : Links) : ℕ → ℕ → Option ℕ
  | 0, i => some i
  | k + 1, i =>
    match s.succ i with
    | none => none
    | some j => succ_iter s k j

/-- Embedding of the head-finding walk `while cinfo.pred: cinfo = cinfo.pred`
with fuel; `none` means the loop ran longer than the fuel — on a `pred`
cycle it means the Python loop does not terminate at all. -/
def pred_head (s : Links) : ℕ → ℕ → Option ℕ
  | 0, _ => none
  | fuel + 1, i =>
    match s.pred i with
    | none => some i
    | some j => pred_head s fuel j

/-- Embedding of the collecting walk `while cinfo: cur_span.append(cinfo);
cinfo = cinfo.succ` with fuel. -/
def chain_from (s : Links) : ℕ → ℕ → Option (List ℕ)
  | 0, _ => none
  | fuel + 1, i =>
    match s.succ i with
    | none => some [i]
    | some j => (chain_from s fuel j).map (fun c => i :: c)

/-- Embedding of the span width accumulation
`width += cinfo.local_xrng[1] - cinfo.local_xrng[0]`. -/
noncomputable def span_width (l : List CInfo) (chain : List ℕ) : ℝ :=
  (chain.map (fun i => (l.getD i dummyCInfo).lxmax - (l.getD i dummyCInfo).lxmin)).sum

/-- Embedding of the outer span-building loop of `assemble_spans`: take the
first remaining contour, walk to its chain head, collect the chain, remove
its members, and keep it as a span when its width exceeds `SPAN_MIN_WIDTH`. -/
noncomputable def walk_spans (s : Links) (l : List CInfo) (n : ℕ) :
    ℕ → List ℕ → Option (List (List ℕ))
  | 0, remaining => if remaining.isEmpty then some [] else none
  | fuel + 1, remaining =>
    match remaining with
    | [] => some []
    | i :: rest =>
      match pred_head s (n + 1) i with
      | none => none
      | some h =>
        match chain_from s (n + 1) h with
        | none => none
        | some chain =>
          match walk_spans s l n fuel
              ((i :: rest).filter (fun j => !(chain.contains j))) with
          | none => none
          | some spans =>
            some (if span_width l chain > SPAN_MIN_WIDTH then chain :: spans else spans)

/-- Embedding of `assemble_spans` (spans as lists of indices into the sorted
contour list): sort by `rect[1]`, generate and sort candidate edges, link
greedily, then walk out the chains. -/
noncomputable def assemble_spans (l : List CInfo) : Option (List (List ℕ)) :=
  walk_spans (link_edges (sort_cinfos l)) (sort_cinfos l)
    (sort_cinfos l).length (sort_cinfos l).length
    (List.range (sort_cinfos l).length)

/-! ## Concrete contour records for the cycle counterexample

Three `ContourInfo` records with centroid `(0,0)`, unit tangent `(1,0)`
(hence angle `0`) and `local_xrng` respectively `[1,2]`, `[0,10]`, `[3,4]`.
Records with such fields arise from degenerate contours: a contour of
collinear points has vanishing polygon moments, so `blob_mean_and_tangent`
takes the epsilon branch and returns centroid `(0,0)` whatever the point
coordinates, while `local_xrng` still spans the actual tangent projections
of the points. -/

/-- Record with `local_xrng = [1, 2]`. -/
def exA : CInfo := ⟨0, 0, 1, 0, 1, 2, 0⟩

/-- Record with `local_xrng = [0, 10]`. -/
def exB : CInfo := ⟨0, 0, 1, 0, 0, 10, 1⟩

/-- Record with `local_xrng = [3, 4]`. -/
def exC : CInfo := ⟨0, 0, 1, 0, 3, 4, 2⟩

/-- The contour list on which the greedy linking closes a cycle. -/
def exList : List CInfo := [exA, exB, exC]

/-! # Theorems -/

/-! ## C2: pix2norm / norm2pix are mutually inverse -/

/-- C2: for every image shape (nonzero larger dimension) and every point `p`,
`norm2pix(shape, pix2norm(shape, p), as_integer=False) = p` — exactly, in the
ideal (real-number) semantics of the two affine maps. -/
theorem c2_pix2norm_norm2pix_inverse (height width : ℕ) (p : ℚ × ℚ)
    (h : 0 < max height width) :
    norm2pix height width (pix2norm height width p) = p := by
  obtain ⟨x, y⟩ := p
  have hM : ((max height width : ℕ) : ℚ) ≠ 0 := by
    exact_mod_cast Nat.pos_iff_ne_zero.mp h
  simp only [pix2norm, norm2pix, Prod.mk.injEq]
  push_cast at hM ⊢
  constructor <;> (field_simp; try ring)

/-- Witness for C2 at the concrete shape (4, 3) and point (7, 2). -/
theorem c2_witness :
    norm2pix 4 3 (pix2norm 4 3 (7, 2)) = (7, 2) :=
  c2_pix2norm_norm2pix_inverse 4 3 (7, 2) (by norm_num)

/-! ## C1: the no-span return path -/

/-- C1 counterexample: for a 1400x1280 input, `resize_to_screen` shrinks the
working image by the factor 2, so the grayscale image returned on the
zero-span path has shape (700, 640), not the input's (1400, 1280). -/
theorem c1_counterexample :
    no_span_return_shape 1400 1280 = (700, 640) ∧
      no_span_return_shape 1400 1280 ≠ (1400, 1280) := by
  have hshape : no_span_return_shape 1400 1280 = (700, 640) := by
    have hd1 : ((1280 : ℕ) : ℚ) / 1280 = 1 := by norm_num
    have hd2 : ((1400 : ℕ) : ℚ) / 700 = 2 := by norm_num
    have hmax : max (((1280 : ℕ) : ℚ) / 1280) (((1400 : ℕ) : ℚ) / 700) = 2 := by
      rw [hd1, hd2]
      exact max_eq_right (by norm_num)
    simp only [no_span_return_shape, resize_to_screen_shape, hmax]
    norm_num [cvRound]
    decide
  refine ⟨hshape, ?_⟩
  rw [hshape]
  decide

/-- C1 (amended): on the zero-span path `page_dewarp` returns a grayscale
image with the shape of the screen-resized working copy; when the input fits
within 1280x700 that shape equals the input shape. -/
theorem c1_no_span_same_size_when_fits (height width : ℕ)
    (hh : height ≤ 700) (hw : width ≤ 1280) :
    no_span_return_shape height width = (height, width) := by
  have h1 : (width : ℚ) / 1280 ≤ 1 := by
    rw [div_le_one (by norm_num)]
    exact_mod_cast hw
  have h2 : (height : ℚ) / 700 ≤ 1 := by
    rw [div_le_one (by norm_num)]
    exact_mod_cast hh
  have h3 : ¬ (1 < ⌈max ((width : ℚ) / 1280) ((height : ℚ) / 700)⌉) := by
    have : (⌈max ((width : ℚ) / 1280) ((height : ℚ) / 700)⌉ : ℤ) ≤ 1 := by
      rw [Int.ceil_le]
      push_cast
      exact max_le h1 h2
    omega
  simp only [no_span_return_shape, resize_to_screen_shape, h3, if_false]

/-- Witness for C1's amended theorem at the concrete shape (640, 800). -/
theorem c1_witness :
    no_span_return_shape 640 800 = (640, 800) :=
  c1_no_span_same_size_when_fits 640 800 (by norm_num) (by norm_num)

/-! ## C8: unsupported channel counts -/

/-- C8 counterexample: a 2-channel input is passed through the channel
normalization of `page_dewarp` completely unchanged — no explicit
`InvalidImageFormat` condition exists in the code — while the specification's
check would reject it. -/
theorem c8_counterexample :
    normalize_channels (some 2) = some 2 ∧
      spec_channel_check (some 2) =
        Except.error ImageFormatError.invalidImageFormat := by
  constructor
  · rfl
  · rfl

/-- C8 (amended): `page_dewarp` converts 2-D input and 4-channel input to
3 channels; every other channel count is passed through unchanged, with no
explicit InvalidImageFormat check anywhere. -/
theorem c8_channel_passthrough (c : ℕ) :
    normalize_channels none = some 3 ∧
      normalize_channels (some 4) = some 3 ∧
      (c ≠ 4 → normalize_channels (some c) = some c) := by
  refine ⟨rfl, rfl, fun hc => ?_⟩
  simp [normalize_channels, hc]

/-! ## C7: epsilon-floored moments -/

/-- C7: `blob_mean_and_tangent` never divides by zero: the effective area is
at least 1e-7 (hence nonzero) for every moments record; when `m00 < 1e-7`
(including exactly zero) the epsilon 1e-7 is substituted, and otherwise the
raw `m00` is used; the centroid is the pair `(m10, m01)` divided by that
nonzero area. -/
theorem c7_blob_area_epsilon (m : Moments) :
    1/10000000 ≤ blob_area m ∧
      blob_area m ≠ 0 ∧
      (m.m00 < 1/10000000 → blob_area m = 1/10000000) ∧
      (¬ m.m00 < 1/10000000 → blob_area m = m.m00) ∧
      blob_mean m = (m.m10 / blob_area m, m.m01 / blob_area m) := by
  have hpos : (0 : ℚ) < 1/10000000 := by norm_num
  by_cases h : m.m00 < 1/10000000
  · have ha : blob_area m = 1/10000000 := by rw [blob_area, if_pos h]
    exact ⟨by rw [ha], by rw [ha]; exact hpos.ne', fun _ => ha,
      fun h2 => absurd h h2, rfl⟩
  · have ha : blob_area m = m.m00 := by rw [blob_area, if_neg h]
    have hle : 1/10000000 ≤ m.m00 := le_of_not_lt h
    exact ⟨by rw [ha]; exact hle,
      by rw [ha]; exact (lt_of_lt_of_le hpos hle).ne',
      fun h2 => absurd h2 h, fun _ => ha, rfl⟩

/-! ## C6: the contour acceptance filter -/

/-- C6: every contour whose bounding box is too narrow, too short, too
steep (width below 1.5 times height), or whose tight mask has a column sum
exceeding `TEXT_MAX_THICKNESS = 10`, is excluded from the list returned by
`get_contours`, for any mask content and any contour list. -/
theorem c6_contour_filter_excludes
    (fill : List (ℤ × ℤ) → List (List ℕ)) (contours : List (List (ℤ × ℤ)))
    (c : List (ℤ × ℤ))
    (h : (bounding_rect c).2.2.1 < 15 ∨ (bounding_rect c).2.2.2 < 2 ∨
      ((bounding_rect c).2.2.1 : ℚ) < 3/2 * ((bounding_rect c).2.2.2 : ℚ) ∨
      10 < max_col_sum (fill c)) :
    c ∉ get_contours fill contours := by
  intro hmem
  rw [get_contours, List.mem_filter] at hmem
  have hf := hmem.2
  rw [contour_filter] at hf
  rcases h with h1 | h2 | h3 | h4
  · simp only [if_pos (Or.inl h1)] at hf
    exact Bool.false_ne_true hf
  · simp only [if_pos (Or.inr (Or.inl h2))] at hf
    exact Bool.false_ne_true hf
  · simp only [if_pos (Or.inr (Or.inr h3))] at hf
    exact Bool.false_ne_true hf
  · by_cases hb : (bounding_rect c).2.2.1 < 15 ∨ (bounding_rect c).2.2.2 < 2 ∨
      ((bounding_rect c).2.2.1 : ℚ) < 3/2 * ((bounding_rect c).2.2.2 : ℚ)
    · simp only [if_pos hb] at hf
      exact Bool.false_ne_true hf
    · simp only [if_neg hb, if_pos h4] at hf
      exact Bool.false_ne_true hf

/-- Witness for C6: a one-point contour (bounding box 1x1, width below 15)
is excluded. -/
theorem c6_witness :
    [((0 : ℤ), (0 : ℤ))] ∉
      get_contours (fun _ => [[1]]) [[((0 : ℤ), (0 : ℤ))]] :=
  c6_contour_filter_excludes (fun _ => [[1]]) [[((0 : ℤ), (0 : ℤ))]]
    [((0 : ℤ), (0 : ℤ))] (Or.inl (by decide))

/-! ## C4: the cubic height function -/

/-- Helper: derivative of the Horner form used by `project_xy`. -/
theorem polyval_dewarp_hasDerivAt (a b c t : ℝ) :
    HasDerivAt (fun x => polyval_dewarp a b c 0 x)
      (3 * a * t ^ 2 + 2 * b * t + c) t := by
  have hfun : (fun x => polyval_dewarp a b c 0 x) =
      fun x => a * x ^ 3 + b * x ^ 2 + c * x := by
    funext x
    simp only [polyval_dewarp]
    ring
  rw [hfun]
  have h3 : HasDerivAt (fun x : ℝ => x ^ 3) (3 * t ^ 2) t := by
    simpa using hasDerivAt_pow 3 t
  have h2 : HasDerivAt (fun x : ℝ => x ^ 2) (2 * t) t := by
    simpa using hasDerivAt_pow 2 t
  have h1 : HasDerivAt (fun x : ℝ => x) 1 t := hasDerivAt_id t
  have hsum := ((h3.const_mul a).add (h2.const_mul b)).add (h1.const_mul c)
  convert hsum using 1
  ring

/-- C4: the cubic `z(x)` with coefficients `[alpha+beta, -2*alpha-beta,
alpha, 0]` evaluated by `project_xy` satisfies `z(0) = 0`, `z(1) = 0`,
`z'(0) = alpha`, `z'(1) = beta`, and the lifted 3-D height depends only on
the page-space x coordinate, never on y. -/
theorem c4_cubic_boundary_conditions (pvec : List ℝ) :
    project_z pvec 0 = 0 ∧
      project_z pvec 1 = 0 ∧
      HasDerivAt (project_z pvec) (pvec.getD 6 0) 0 ∧
      HasDerivAt (project_z pvec) (pvec.getD 7 0) 1 ∧
      ∀ p q : ℝ × ℝ, p.1 = q.1 → lift_z pvec p = lift_z pvec q := by
  set a := pvec.getD 6 0 with ha
  set b := pvec.getD 7 0 with hb
  have hz : project_z pvec = fun x =>
      polyval_dewarp (a + b) (-2 * a + -1 * b) a 0 x := by
    funext x
    rw [project_z]
  refine ⟨?_, ?_, ?_, ?_, ?_⟩
  · rw [hz]
    simp [polyval_dewarp]
  · rw [hz]
    simp only [polyval_dewarp]
    ring
  · rw [hz]
    have h := polyval_dewarp_hasDerivAt (a + b) (-2 * a + -1 * b) a 0
    convert h using 1
    ring
  · rw [hz]
    have h := polyval_dewarp_hasDerivAt (a + b) (-2 * a + -1 * b) a 1
    convert h using 1
    ring
  · intro p q hpq
    rw [lift_z, lift_z, hpq]

/-! ## C5: the parameter vector layout -/

/-- C5: the parameter vector built by `get_default_params` has length
`8 + #spans + total sample count` and is laid out as rotation (indices 0-2),
translation (3-5), the two zero cubic slopes (6-7), the per-span y-offsets,
then the concatenated per-span x-offset arrays. -/
theorem c5_default_params_layout (rvec tvec ycoords : List ℝ)
    (xcoords : List (List ℝ)) (hr : rvec.length = 3) (ht : tvec.length = 3) :
    (default_params rvec tvec ycoords xcoords).length
        = 8 + ycoords.length + (span_counts xcoords).sum ∧
      (default_params rvec tvec ycoords xcoords).take 3 = rvec ∧
      ((default_params rvec tvec ycoords xcoords).drop 3).take 3 = tvec ∧
      ((default_params rvec tvec ycoords xcoords).drop 6).take 2 = [0, 0] ∧
      ((default_params rvec tvec ycoords xcoords).drop 8).take ycoords.length
        = ycoords ∧
      (default_params rvec tvec ycoords xcoords).drop (8 + ycoords.length)
        = xcoords.flatten := by
  have hshape : default_params rvec tvec ycoords xcoords =
      rvec ++ (tvec ++ ([0, 0] ++ (ycoords ++ xcoords.flatten))) := by
    simp [default_params, List.append_assoc]
  have d3 : (default_params rvec tvec ycoords xcoords).drop 3 =
      tvec ++ ([0, 0] ++ (ycoords ++ xcoords.flatten)) := by
    rw [hshape, List.drop_left' hr]
  have d6 : (default_params rvec tvec ycoords xcoords).drop 6 =
      [0, 0] ++ (ycoords ++ xcoords.flatten) := by
    have : (6 : ℕ) = 3 + 3 := rfl
    rw [this, ← List.drop_drop, d3, List.drop_left' ht]
  have d8 : (default_params rvec tvec ycoords xcoords).drop 8 =
      ycoords ++ xcoords.flatten := by
    have h8 : (8 : ℕ) = 6 + 2 := rfl
    rw [h8, ← List.drop_drop, d6]
    rfl
  refine ⟨?_, ?_, ?_, ?_, ?_, ?_⟩
  · simp [default_params, span_counts, List.length_flatten, hr, ht]
    omega
  · rw [hshape, List.take_left' hr]
  · rw [d3, List.take_left' ht]
  · rw [d6]
    rfl
  · rw [d8, List.take_left]
  · rw [← List.drop_drop, d8, List.drop_left]

/-- Witness for C5 at a concrete parameter bundle: one span with two sample
points gives a vector of length 8 + 1 + 2. -/
theorem c5_witness :
    (default_params [1, 2, 3] [4, 5, 6] [7] [[8, 9]]).length = 11 := by
  have h := (c5_default_params_layout [1, 2, 3] [4, 5, 6] [7] [[8, 9]]
    rfl rfl).1
  simpa [span_counts] using h

/-! ## C10: the final composite coloring -/

/-- C10: every pixel of the composite produced by `remap_image` is exactly
one of red `(0,0,255)`, white `(255,255,255)`, or black `(0,0,0)`; a set red
mask always wins (red), an unset red mask with a white threshold gives white,
and an unset red mask with a non-white threshold gives black. -/
theorem c10_composite_trichotomy (red thresh : ℕ) :
    (composite_pixel red thresh = (0, 0, 255) ∨
      composite_pixel red thresh = (255, 255, 255) ∨
      composite_pixel red thresh = (0, 0, 0)) ∧
      (0 < red → composite_pixel red thresh = (0, 0, 255)) ∧
      (red = 0 → thresh = 255 → composite_pixel red thresh = (255, 255, 255)) ∧
      (red = 0 → thresh ≠ 255 → composite_pixel red thresh = (0, 0, 0)) := by
  by_cases hr : red = 0 <;> by_cases ht : thresh = 255 <;>
    simp [composite_pixel, composite_after_red, composite_init, hr, ht,
      Nat.pos_of_ne_zero]

/-! ## C3 and C9: span assembly -/

/-- Helper: square root of 81. -/
theorem sqrt_eighty_one : Real.sqrt 81 = 9 := by
  rw [show (81 : ℝ) = 9 ^ 2 by norm_num, Real.sqrt_sq (by norm_num : (0:ℝ) ≤ 9)]

/-- Helper: square root of 16. -/
theorem sqrt_sixteen : Real.sqrt 16 = 4 := by
  rw [show (16 : ℝ) = 4 ^ 2 by norm_num, Real.sqrt_sq (by norm_num : (0:ℝ) ≤ 4)]

/-- Helper: `arctan2(0, 0) = 0`, as in numpy. -/
theorem atan2_zero_zero : atan2 0 0 = 0 := by
  rw [atan2]
  norm_num [Complex.arg_zero]

/-- Helper: `arctan2(0, 1) = 0`. -/
theorem atan2_zero_one : atan2 0 1 = 0 := by
  rw [atan2]
  norm_num [Complex.arg_one]

/-- Helper: the angular distance of an angle from itself is zero. -/
theorem angle_dist_zero_zero : angle_dist 0 0 = 0 := by
  simp [angle_dist]

/-- Helper: the candidate edge proposed from `exB` (index 1) and `exA`
(index 0): accepted, oriented `1 -> 0`, score 9. -/
theorem gen_edge_BA :
    generate_candidate_edge 1 exB 0 exA = some (9, 1, 0) := by
  norm_num [generate_candidate_edge, generate_candidate_edge_core, exA, exB,
    CInfo.point0x, CInfo.point0y, CInfo.point1x, CInfo.point1y, CInfo.projx,
    CInfo.angle, local_overlap, interval_measure_overlap, atan2_zero_zero,
    atan2_zero_one, angle_dist_zero_zero, EDGE_MAX_LENGTH, EDGE_MAX_OVERLAP,
    EDGE_MAX_ANGLE, EDGE_ANGLE_COST, sqrt_eighty_one, min_def, max_def]

/-- Helper: the candidate edge proposed from `exC` (index 2) and `exA`
(index 0): swapped to `exA` first, accepted, oriented `0 -> 2`, score 1. -/
theorem gen_edge_CA :
    generate_candidate_edge 2 exC 0 exA = some (1, 0, 2) := by
  norm_num [generate_candidate_edge, generate_candidate_edge_core, exA, exC,
    CInfo.point0x, CInfo.point0y, CInfo.point1x, CInfo.point1y, CInfo.projx,
    CInfo.angle, local_overlap, interval_measure_overlap, atan2_zero_zero,
    atan2_zero_one, angle_dist_zero_zero, EDGE_MAX_LENGTH, EDGE_MAX_OVERLAP,
    EDGE_MAX_ANGLE, EDGE_ANGLE_COST, Real.sqrt_one, min_def, max_def]

/-- Helper: the candidate edge proposed from `exC` (index 2) and `exB`
(index 1): accepted, oriented `2 -> 1`, score 4. -/
theorem gen_edge_CB :
    generate_candidate_edge 2 exC 1 exB = some (4, 2, 1) := by
  norm_num [generate_candidate_edge, generate_candidate_edge_core, exB, exC,
    CInfo.point0x, CInfo.point0y, CInfo.point1x, CInfo.point1y, CInfo.projx,
    CInfo.angle, local_overlap, interval_measure_overlap, atan2_zero_zero,
    atan2_zero_one, angle_dist_zero_zero, EDGE_MAX_LENGTH, EDGE_MAX_OVERLAP,
    EDGE_MAX_ANGLE, EDGE_ANGLE_COST, sqrt_sixteen, min_def, max_def]

/-- Helper: the example list is already sorted by `rect[1]`. -/
theorem sort_cinfos_ex : sort_cinfos exList = exList := by
  norm_num [sort_cinfos, exList, List.insertionSort, List.orderedInsert,
    exA, exB, exC]

/-- Helper: the candidate edges of the example list, in generation order. -/
theorem candidate_edges_ex :
    candidate_edges exList = [((9 : ℝ), 1, 0), ((1 : ℝ), 0, 2), ((4 : ℝ), 2, 1)] := by
  have hlen : exList.length = 3 := rfl
  have hr3 : List.range 3 = [0, 1, 2] := rfl
  have hr0 : List.range 0 = ([] : List ℕ) := rfl
  have hr1 : List.range 1 = [0] := rfl
  have hr2 : List.range 2 = [0, 1] := rfl
  have h0 : exList.getD 0 dummyCInfo = exA := rfl
  have h1 : exList.getD 1 dummyCInfo = exB := rfl
  have h2 : exList.getD 2 dummyCInfo = exC := rfl
  simp only [candidate_edges, hlen, hr3, hr0, hr1, hr2, h0, h1, h2,
    List.flatMap_cons, List.flatMap_nil, List.filterMap_cons, List.filterMap_nil,
    gen_edge_BA, gen_edge_CA, gen_edge_CB]
  rfl

/-- Helper: the candidate edges sorted ascending by score. -/
theorem sort_edges_ex :
    sort_edges [((9 : ℝ), 1, 0), ((1 : ℝ), 0, 2), ((4 : ℝ), 2, 1)]
      = [((1 : ℝ), 0, 2), ((4 : ℝ), 2, 1), ((9 : ℝ), 1, 0)] := by
  norm_num [sort_edges, List.insertionSort, List.orderedInsert]

/-- Helper: the link state of the example list, fully consumed. -/
theorem link_edges_ex :
    link_edges exList = List.foldl apply_edge empty_links
      [((1 : ℝ), 0, 2), ((4 : ℝ), 2, 1), ((9 : ℝ), 1, 0)] := by
  rw [link_edges, candidate_edges_ex, sort_edges_ex]

/-- C3 counterexample: on the concrete `ContourInfo` list `exList` the
greedy edge consumption of `assemble_spans` links `0 -> 2 -> 1 -> 0`: the
`succ`/`pred` links form a cycle, following `succ` three times returns to
the start, and the chain walk never terminates (modelled by fuel exhaustion
for every fuel, hence the `none` result). -/
theorem c3_counterexample :
    (link_edges (sort_cinfos exList)).succ 0 = some 2 ∧
      (link_edges (sort_cinfos exList)).succ 2 = some 1 ∧
      (link_edges (sort_cinfos exList)).succ 1 = some 0 ∧
      succ_iter (link_edges (sort_cinfos exList)) 3 0 = some 0 ∧
      assemble_spans exList = none := by
  rw [assemble_spans, sort_cinfos_ex, link_edges_ex]
  exact ⟨rfl, rfl, rfl, rfl, rfl⟩

/-- Helper: the empty link state is mutually inverse. -/
theorem links_inverse_empty : links_inverse empty_links := by
  intro i j
  simp [empty_links]

/-- Helper: consuming one candidate edge preserves the mutual-inverse
invariant of the link state. -/
theorem links_inverse_apply_edge (s : Links) (e : ℝ × ℕ × ℕ)
    (h : links_inverse s) : links_inverse (apply_edge s e) := by
  rw [apply_edge]
  by_cases hc : s.succ e.2.1 = none ∧ s.pred e.2.2 = none
  · rw [if_pos hc]
    intro i j
    by_cases hi : i = e.2.1 <;> by_cases hj : j = e.2.2
    · subst hi; subst hj
      simp
    · subst hi
      simp only [if_pos rfl, if_neg hj]
      constructor
      · intro hij
        exact absurd (Option.some.inj hij).symm hj
      · intro hp
        have hs := (h e.2.1 j).mpr hp
        rw [hc.1] at hs
        exact Option.noConfusion hs
    · subst hj
      simp only [if_neg hi, if_pos rfl]
      constructor
      · intro hij
        have hp := (h i e.2.2).mp hij
        rw [hc.2] at hp
        exact Option.noConfusion hp
      · intro hp
        exact absurd (Option.some.inj hp).symm hi
    · simp only [if_neg hi, if_neg hj]
      exact h i j
  · rw [if_neg hc]
    exact h

/-- Helper: the invariant is preserved by consuming any list of edges. -/
theorem links_inverse_foldl (es : List (ℝ × ℕ × ℕ)) (s : Links)
    (h : links_inverse s) : links_inverse (List.foldl apply_edge s es) := by
  induction es generalizing s with
  | nil => exact h
  | cons e es ih =>
    exact ih (apply_edge s e) (links_inverse_apply_edge s e h)

/-- C3 (amended): after `assemble_spans` consumes the sorted candidate
edges, the links are mutually inverse — so every contour has at most one
predecessor and at most one successor, and `succ` and `pred` are injective
where defined; acyclicity, however, does not hold for every `ContourInfo`
list (see the counterexample), so the chain walk need not terminate. -/
theorem c3_links_mutually_inverse (l : List CInfo) (i j : ℕ) :
    (link_edges l).succ i = some j ↔ (link_edges l).pred j = some i :=
  links_inverse_foldl (sort_edges (candidate_edges l)) empty_links
    links_inverse_empty i j

/-- C9: span assembly is deterministic — two runs of `assemble_spans` on the
same `ContourInfo` list (same records, same order) produce identical span
lists, in identical order, with identical contour order inside each span.
The embedding is a pure function of the input list, so equal inputs give
equal outputs. -/
theorem c9_assemble_spans_deterministic (l₁ l₂ : List CInfo) (h : l₁ = l₂) :
    assemble_spans l₁ = assemble_spans l₂ := by
  rw [h]

/-- Witness for C9: two runs on the concrete one-record list agree. -/
theorem c9_witness :
    assemble_spans [dummyCInfo] = assemble_spans [dummyCInfo] :=
  c9_assemble_spans_deterministic [dummyCInfo] [dummyCInfo] rfl

end PageDewarp
